import Mathlib

/-!
Shallow embedding of the AI-Powered-Mail-Dashboard core: the SQLite-backed
store (`src/storage/sqlite_manager.py`), the Gmail ingestion pipeline
(`src/email_processing/fetch_emails.py`) and the AI analysis producer
(`src/ai_analysis/ai_analyzer.py`), together with theorems settling the
frozen specification claims.

Python strings are modelled as Lean `String`; Python character slicing
`s[:n]` is modelled as taking the first `n` characters of the underlying
character list; Python `None`-able values are `Option`; SQLite tables are
lists of row structures with the uniqueness keys of the schema; the Gmail
service and the LLM are oracles passed in as explicit parameters.
-/

namespace MailDashboard

/-- Python string slicing `s[:n]`: the first `n` characters. -/
def strTake (s : String) (n : Nat) : String := ⟨s.data.take n⟩

/-- Python `str.lower()`, character-wise lowering. -/
def pyLower (s : String) : String := ⟨s.data.map Char.toLower⟩

/-!
## Category classifier — `map_labels_to_category` (sqlite_manager.py 415-428)
-/

/-- Embedding of `map_labels_to_category(labels)`: `labels = set(labels or [])`
followed by the fixed chain of membership tests. `none` models Python `None`. -/
def map_labels_to_category (labels : Option (List String)) : String :=
  let ls := labels.getD []
  if ls.contains "INBOX" then "Inbox"
  else if ls.contains "SENT" then "Sent"
  else if ls.contains "DRAFT" then "Drafts"
  else if ls.contains "CATEGORY_PROMOTIONS" then "Promotions"
  else if ls.contains "IMPORTANT" then "Important"
  else "Other"

/-!
## AI analysis validation — `AIEmailAnalyzer` (ai_analyzer.py)
-/

/-- The raw dictionary parsed from the model's JSON response, before
validation. A `none` field models a missing dictionary key
(`results.get(key, default)` supplies the default). -/
structure RawAnalysis where
  summary : Option String
  priority_score : Option Int
  priority_reason : Option String
  sentiment : Option String
  action_required : Option Bool
  suggested_actions : Option (List String)
  key_topics : Option (List String)
  draft_reply : Option String
deriving Repr, DecidableEq

/-- The validated analysis dictionary produced by
`_validate_analysis_results` (and by `_get_fallback_analysis`). -/
structure ValidatedAnalysis where
  summary : String
  priority_score : Int
  priority_reason : String
  sentiment : String
  action_required : Bool
  suggested_actions : List String
  key_topics : List String
  draft_reply : String
deriving Repr, DecidableEq

/-- The allowed sentiment values (`valid_sentiments`, ai_analyzer.py 298). -/
def valid_sentiments : List String := ["positive", "negative", "neutral", "urgent"]

/-- Embedding of `AIEmailAnalyzer._validate_analysis_results` (ai_analyzer.py
284-302): defaults for missing keys, clamp of `priority_score` into `[1,5]`,
character truncation of string fields, length truncation of list fields, and
the sentiment whitelist check replacing unknown values by `"neutral"`. -/
def validate_analysis_results (results : RawAnalysis) : ValidatedAnalysis :=
  let sentiment0 := pyLower (results.sentiment.getD "neutral")
  { summary := strTake (results.summary.getD "Analysis not available") 500
    priority_score := max 1 (min 5 (results.priority_score.getD 3))
    priority_reason := strTake (results.priority_reason.getD "Standard priority") 200
    sentiment := if valid_sentiments.contains sentiment0 then sentiment0 else "neutral"
    action_required := results.action_required.getD false
    suggested_actions := (results.suggested_actions.getD []).take 5
    key_topics := (results.key_topics.getD []).take 10
    draft_reply := strTake (results.draft_reply.getD "No reply needed") 1000 }

/-- Embedding of `AIEmailAnalyzer._get_fallback_analysis` (ai_analyzer.py
304-315): the fixed fallback payload. -/
def get_fallback_analysis : ValidatedAnalysis :=
  { summary := "AI analysis temporarily unavailable"
    priority_score := 3
    priority_reason := "Default priority - analysis failed"
    sentiment := "neutral"
    action_required := true
    suggested_actions := ["Review email manually"]
    key_topics := ["Unknown"]
    draft_reply := "AI draft unavailable - please compose manually" }

/-- Outcome of one external model invocation (`self.llm.invoke` plus the
JSON-parsing of its response, ai_analyzer.py 254-270): the response parsed
into the expected structure, a response whose text is not parseable as JSON
(`json.JSONDecodeError`), or a raised/timed-out call (`except Exception`). -/
inductive ModelResponse where
  | parsed (r : RawAnalysis)
  | badJson
  | raised
deriving Repr, DecidableEq

/-- Embedding of `AIEmailAnalyzer._run_ai_analysis` (ai_analyzer.py 215-282):
a successfully parsed response is validated; a JSON-decode failure and a
raised external call both produce the fallback payload. The function is
total: no outcome is re-raised to the caller. -/
def run_ai_analysis (resp : ModelResponse) : ValidatedAnalysis :=
  match resp with
  | .parsed r => validate_analysis_results r
  | .badJson => get_fallback_analysis
  | .raised => get_fallback_analysis

/-!
## Persistent store — `SQLiteManager` (sqlite_manager.py)
-/

/-- One row of the `emails` table (schema at sqlite_manager.py 48-68).
`gmail_id` is the provider identity (UNIQUE); `is_read` is the 0/1 read flag.
The `created_at`/`updated_at` timestamp columns are not modelled. -/
structure EmailRow where
  id : Nat
  gmail_id : String
  thread_id : Option String
  history_id : Option String
  sender : String
  to_recipients : String
  subject : String
  date : String
  snippet : String
  body : String
  labels : String
  category : String
  is_read : Nat
deriving Repr, DecidableEq

/-- The `emails` table: its rows plus the AUTOINCREMENT counter. -/
structure EmailsTable where
  rows : List EmailRow
  nextId : Nat
deriving Repr, DecidableEq

/-- The SQL `CASE WHEN excluded.is_read IS NOT NULL THEN excluded.is_read
ELSE emails.is_read END` of the upsert (sqlite_manager.py 184-187), applied
to the bound parameter (`none` models SQL NULL). -/
def sqlIsReadCase (excluded : Option Nat) (old : Nat) : Nat :=
  match excluded with
  | some v => v
  | none => old

/-- Embedding of `SQLiteManager.upsert_email` (sqlite_manager.py 143-208):
`INSERT ... ON CONFLICT(gmail_id) DO UPDATE` followed by a re-select of the
local id. The Python preamble `is_read_val = 1 if (is_read and
int(is_read) == 1) else 0` coerces the `Optional[int]` argument to 0 or 1
before binding, so the bound parameter passed to `sqlIsReadCase` is always
`some is_read_val`, never SQL NULL. -/
def upsert_email (t : EmailsTable) (gmail_id : String)
    (thread_id history_id : Option String)
    (sender to_recipients subject date snippet body labels category : String)
    (is_read : Option Nat) : EmailsTable × Nat :=
  let category := if category = "" then "Other" else category
  let is_read_val : Nat :=
    match is_read with
    | some v => if v == 1 then 1 else 0
    | none => 0
  match t.rows.find? (fun r => r.gmail_id == gmail_id) with
  | some old =>
    let updated : EmailRow :=
      { old with
        thread_id := thread_id
        history_id := history_id
        sender := sender
        to_recipients := to_recipients
        subject := subject
        date := date
        snippet := snippet
        body := body
        labels := labels
        category := category
        is_read := sqlIsReadCase (some is_read_val) old.is_read }
    ({ t with rows := t.rows.map (fun r => if r.gmail_id == gmail_id then updated else r) },
     old.id)
  | none =>
    let row : EmailRow :=
      { id := t.nextId
        gmail_id := gmail_id
        thread_id := thread_id
        history_id := history_id
        sender := sender
        to_recipients := to_recipients
        subject := subject
        date := date
        snippet := snippet
        body := body
        labels := labels
        category := category
        is_read := is_read_val }
    ({ rows := t.rows ++ [row], nextId := t.nextId + 1 }, t.nextId)

/-- One row of the `attachments` table (schema at sqlite_manager.py 71-85):
UNIQUE on `(email_id, filename, size)`; `content` is a nullable blob
(modelled as an optional byte list), `content_preview` a nullable text. -/
structure AttachmentRow where
  id : Nat
  email_id : Nat
  filename : String
  size : Nat
  content_preview : Option String
  content : Option (List Nat)
deriving Repr, DecidableEq

/-- The `attachments` table: its rows plus the AUTOINCREMENT counter. -/
structure AttachmentsTable where
  rows : List AttachmentRow
  nextId : Nat
deriving Repr, DecidableEq

/-- SQL `COALESCE(a, b)` for two nullable values. -/
def coalesce {α : Type} (a b : Option α) : Option α :=
  match a with
  | some x => some x
  | none => b

/-- Whether a row carries the conflict-target key `(email_id, filename, size)`. -/
def attKey (r : AttachmentRow) (e : Nat) (f : String) (s : Nat) : Bool :=
  r.email_id == e && r.filename == f && r.size == s

/-- The size actually bound by `insert_attachment`: `size if size is not None
else (len(content) if content else 0)` (sqlite_manager.py 219). -/
def resolved_att_size (content : Option (List Nat)) (size : Option Nat) : Nat :=
  match size with
  | some s => s
  | none =>
    match content with
    | some c => c.length
    | none => 0

/-- The filename actually bound: `filename or "unknown"` (sqlite_manager.py
228). -/
def resolved_att_filename (filename : Option String) : String :=
  match filename with
  | some f => if f = "" then "unknown" else f
  | none => "unknown"

/-- The SQL statement of `insert_attachment` after argument resolution:
`INSERT ... ON CONFLICT(email_id, filename, size) DO UPDATE SET
content_preview = COALESCE(excluded.content_preview, attachments.content_preview),
content = COALESCE(excluded.content, attachments.content)` followed by the
re-select of the id by the key (sqlite_manager.py 220-236). -/
def insert_attachment_core (t : AttachmentsTable) (email_id : Nat) (fname : String)
    (sz : Nat) (content : Option (List Nat)) (boundPreview : Option String) :
    AttachmentsTable × Option Nat :=
  match t.rows.find? (fun r => attKey r email_id fname sz) with
  | some old =>
    let updated : AttachmentRow :=
      { old with
        content_preview := coalesce boundPreview old.content_preview
        content := coalesce content old.content }
    ({ t with rows := t.rows.map (fun r => if attKey r email_id fname sz then updated else r) },
     some old.id)
  | none =>
    ({ rows := t.rows ++ [{ id := t.nextId
                            email_id := email_id
                            filename := fname
                            size := sz
                            content_preview := boundPreview
                            content := content }]
       nextId := t.nextId + 1 },
     some t.nextId)

/-- Embedding of `SQLiteManager.insert_attachment` (sqlite_manager.py
210-239): resolve the defaulted size, filename and preview (the bound
preview is `content_preview or ""`, never SQL NULL, while the bound content
may be NULL), then run the conflict-handling insert. -/
def insert_attachment (t : AttachmentsTable) (email_id : Nat)
    (filename : Option String) (content : Option (List Nat))
    (content_preview : Option String) (size : Option Nat) :
    AttachmentsTable × Option Nat :=
  insert_attachment_core t email_id (resolved_att_filename filename)
    (resolved_att_size content size) content (some (content_preview.getD ""))

/-- Two attachment rows carry the same `(email_id, filename, size)` key. -/
def sameAttKey (a b : AttachmentRow) : Prop :=
  a.email_id = b.email_id ∧ a.filename = b.filename ∧ a.size = b.size

/-- The UNIQUE constraint of the `attachments` schema: no two rows share the
`(email_id, filename, size)` key. -/
def att_keys_unique (t : AttachmentsTable) : Prop :=
  t.rows.Pairwise (fun a b => ¬ sameAttKey a b)

/-- The `sync_metadata` key-value table (`key TEXT PRIMARY KEY, value TEXT`),
modelled as the finite map it implements. -/
def SyncMeta : Type := String → Option String

/-- Embedding of `SQLiteManager.update_sync_metadata` (sqlite_manager.py
111-119): `INSERT ... ON CONFLICT(key) DO UPDATE SET value=excluded.value`. -/
def update_sync_metadata (m : SyncMeta) (key value : String) : SyncMeta :=
  fun k => if k = key then some value else m k

/-- Embedding of `SQLiteManager.get_sync_metadata` (sqlite_manager.py
121-124): the stored value, or `None` when the key is absent. -/
def get_sync_metadata (m : SyncMeta) (key : String) : Option String := m key

/-!
## Analysis producer state — `AIEmailAnalyzer.analyze_email` (ai_analyzer.py)
-/

/-- The `EmailAnalysis` dataclass (ai_analyzer.py 27-41), which is also the
shape of one row of the `email_analysis` table (UNIQUE on `email_id`,
schema at ai_analyzer.py 69-87). -/
structure EmailAnalysis where
  email_id : Nat
  gmail_id : String
  summary : String
  priority_score : Int
  priority_reason : String
  sentiment : String
  draft_reply : String
  action_required : Bool
  suggested_actions : List String
  key_topics : List String
  analysis_timestamp : String
  processing_time_ms : Int
deriving Repr, DecidableEq

/-- The state touched by the analysis producer: the `email_analysis` table
(UNIQUE on `email_id`), the set of email ids whose `emails.ai_analyzed`
flag is TRUE, and a call counter on the stubbed `self.llm.invoke`
collaborator. -/
structure AnalyzerState where
  analysisRows : List EmailAnalysis
  aiAnalyzed : List Nat
  modelCalls : Nat
deriving Repr, DecidableEq

/-- Embedding of `AIEmailAnalyzer._is_already_analyzed` (ai_analyzer.py
345-350): `SELECT 1 FROM email_analysis WHERE email_id = ?` is non-empty. -/
def is_already_analyzed (s : AnalyzerState) (email_id : Nat) : Bool :=
  s.analysisRows.any (fun a => a.email_id == email_id)

/-- Embedding of `AIEmailAnalyzer._get_existing_analysis` (ai_analyzer.py
352-380): the stored row for `email_id`, if any. -/
def get_existing_analysis (s : AnalyzerState) (email_id : Nat) : Option EmailAnalysis :=
  s.analysisRows.find? (fun a => a.email_id == email_id)

/-- Embedding of `AIEmailAnalyzer._store_analysis` (ai_analyzer.py 317-343):
`INSERT OR REPLACE INTO email_analysis`, keyed by `UNIQUE(email_id)`. -/
def store_analysis (s : AnalyzerState) (a : EmailAnalysis) : AnalyzerState :=
  { s with analysisRows := a :: s.analysisRows.filter (fun r => r.email_id != a.email_id) }

/-- Embedding of `AIEmailAnalyzer._mark_email_analyzed` (ai_analyzer.py
382-390): `UPDATE emails SET ai_analyzed = TRUE WHERE id = ?`. -/
def mark_email_analyzed (s : AnalyzerState) (email_id : Nat) : AnalyzerState :=
  { s with aiAnalyzed :=
      if s.aiAnalyzed.contains email_id then s.aiAnalyzed else email_id :: s.aiAnalyzed }

/-- The `EmailAnalysis(...)` constructor call of `analyze_email`
(ai_analyzer.py 129-142), packaging the validated results with the
identities, the timestamp and the measured processing time. -/
def mkEmailAnalysis (email_id : Nat) (gmail_id : String) (results : ValidatedAnalysis)
    (timestamp : String) (elapsed_ms : Int) : EmailAnalysis :=
  { email_id := email_id
    gmail_id := gmail_id
    summary := results.summary
    priority_score := results.priority_score
    priority_reason := results.priority_reason
    sentiment := results.sentiment
    draft_reply := results.draft_reply
    action_required := results.action_required
    suggested_actions := results.suggested_actions
    key_topics := results.key_topics
    analysis_timestamp := timestamp
    processing_time_ms := elapsed_ms }

/-- Embedding of `AIEmailAnalyzer.analyze_email` (ai_analyzer.py 105-155).
If the email already has an `email_analysis` row, the stored row is returned
and nothing else happens (a pure read). Otherwise `_run_ai_analysis` executes
— `modelCalls` counts the `self.llm.invoke` attempt it performs — and the
result (validated output or fallback payload) is stored and the email is
marked analyzed. `resp` is the outcome the external model produces if it is
invoked; `timestamp` and `elapsed_ms` model `datetime.now().isoformat()` and
the measured processing time. -/
def analyze_email (s : AnalyzerState) (email_id : Nat) (gmail_id : String)
    (resp : ModelResponse) (timestamp : String) (elapsed_ms : Int) :
    AnalyzerState × Option EmailAnalysis :=
  if is_already_analyzed s email_id then
    (s, get_existing_analysis s email_id)
  else
    let s1 := { s with modelCalls := s.modelCalls + 1 }
    let analysis := mkEmailAnalysis email_id gmail_id (run_ai_analysis resp) timestamp elapsed_ms
    let s2 := mark_email_analyzed (store_analysis s1 analysis) email_id
    (s2, some analysis)

/-!
## Ingestion pipeline — `EmailFetcher` (fetch_emails.py)
-/

/-- Python `str.strip()`: drop leading and trailing whitespace. -/
def pyStrip (s : String) : String :=
  ⟨((s.data.dropWhile Char.isWhitespace).reverse.dropWhile Char.isWhitespace).reverse⟩

/-- The parsed result of `service.users().messages().list(...)`: listed
message ids and the optional `nextPageToken`. -/
structure ListResult where
  messages : List String
  nextPageToken : Option String
deriving Repr, DecidableEq

/-- Outcome of the page-listing call: a result, or a raised transport/auth
exception. -/
inductive ListOutcome where
  | ok (r : ListResult)
  | raised
deriving Repr, DecidableEq

/-- The `pageToken` parameter actually sent: `fetch_email_batch` sets it only
`if page_token and page_token.strip()` (fetch_emails.py 432-433). -/
def effective_page_token (page_token : Option String) : Option String :=
  match page_token with
  | some t => if pyStrip t = "" then none else some t
  | none => none

/-- The pre-fetched set of stored provider identities (fetch_emails.py
450-456): `SELECT DISTINCT gmail_id FROM emails WHERE gmail_id IS NOT NULL`. -/
def existing_gmail_ids (t : EmailsTable) : List String :=
  t.rows.map (fun r => r.gmail_id)

/-- The observable outcome of one `fetch_email_batch` call: the store after
the page, the returned list of newly processed email dicts, the returned
next-page token, the `skipped_count` of already-stored identities, and the
ids whose full message body was fetched (`_process_email` invocations). -/
structure BatchResult (α : Type) where
  store : EmailsTable
  emails : List α
  nextPageToken : Option String
  skipped : Nat
  fetchedBodies : List String
deriving Repr, DecidableEq

/-- One iteration of the per-message loop of `fetch_email_batch`
(fetch_emails.py 458-478): an id in the pre-fetched `existing_ids` set is
counted as skipped without touching the store or fetching a body; otherwise
`process` (abstracting `_process_email`, fetch_emails.py 487-581, which
fetches the full message, decodes it and upserts message plus attachments
into the store) runs, appending its email dict when it succeeds and only
recording the body fetch when it fails. -/
def batch_step (α : Type) (existing : List String)
    (process : EmailsTable → String → EmailsTable × Option α)
    (acc : BatchResult α) (gid : String) : BatchResult α :=
  if existing.contains gid then
    { acc with skipped := acc.skipped + 1 }
  else
    let pr := process acc.store gid
    match pr.2 with
    | some e =>
      { acc with
        store := pr.1
        emails := acc.emails ++ [e]
        fetchedBodies := acc.fetchedBodies ++ [gid] }
    | none =>
      { acc with
        store := pr.1
        fetchedBodies := acc.fetchedBodies ++ [gid] }

/-- Embedding of `EmailFetcher.fetch_email_batch` (fetch_emails.py 424-485).
`listOf` is the Gmail listing oracle, applied to the effective page token
(the `batch_size`/`includeSpamTrash` parameters are absorbed into it). A
raised listing call is caught and yields `([], None)` with the store
untouched; an empty id list returns immediately; otherwise the per-message
loop folds over the listed ids with the pre-fetched set of stored provider
identities. -/
def fetch_email_batch (α : Type)
    (listOf : Option String → ListOutcome)
    (process : EmailsTable → String → EmailsTable × Option α)
    (store : EmailsTable) (page_token : Option String) : BatchResult α :=
  match listOf (effective_page_token page_token) with
  | .raised => ⟨store, [], none, 0, []⟩
  | .ok r =>
    if r.messages.isEmpty then ⟨store, [], r.nextPageToken, 0, []⟩
    else
      r.messages.foldl (batch_step α (existing_gmail_ids store) process)
        ⟨store, [], r.nextPageToken, 0, []⟩

/-- Python truthiness of `next_token` in `if not next_token or ...`
(fetch_emails.py 713). -/
def tokenFalsy : Option String → Bool
  | none => true
  | some t => t == ""

/-- Python truthiness of `if max_emails and total_processed >= max_emails`
(fetch_emails.py 717). -/
def budgetReached (max_emails : Option Nat) (total : Nat) : Bool :=
  match max_emails with
  | some m => (m != 0) && (m ≤ total)
  | none => false

/-- Outcome of a full-sync run: final store, final `sync_metadata` map and
the returned `total_processed`. -/
structure SyncOutcome where
  store : EmailsTable
  meta : SyncMeta
  total_processed : Nat

/-- The `while True` loop of `EmailFetcher.fetch_all_emails` (fetch_emails.py
692-724), bounded by explicit fuel (the source loop terminates only through
its stop conditions; fuel exhaustion returns the totals so far). Each
iteration fetches one page, then unconditionally writes `last_page_token`
(to `next_token or ""`) and `last_sync_time` (to `clock batch_count`, the
wall-clock reading of that iteration), then decides whether to stop. -/
def fetch_all_emails_loop (α : Type)
    (listOf : Option String → ListOutcome)
    (process : EmailsTable → String → EmailsTable × Option α)
    (clock : Nat → String) (max_emails : Option Nat) :
    Nat → EmailsTable → SyncMeta → Option String → Nat → Nat → SyncOutcome
  | 0, store, meta, _, total, _ => ⟨store, meta, total⟩
  | fuel + 1, store, meta, page_token, total, batch_count =>
    let batch := fetch_email_batch α listOf process store page_token
    let total' := total + batch.emails.length
    let meta1 := update_sync_metadata meta "last_page_token" (batch.nextPageToken.getD "")
    let meta2 := update_sync_metadata meta1 "last_sync_time" (clock batch_count)
    if tokenFalsy batch.nextPageToken || batch.emails.length == 0 then
      ⟨batch.store, meta2, total'⟩
    else if budgetReached max_emails total' then
      ⟨batch.store, meta2, total'⟩
    else
      fetch_all_emails_loop α listOf process clock max_emails
        fuel batch.store meta2 batch.nextPageToken total' (batch_count + 1)

/-- Embedding of `EmailFetcher.fetch_all_emails` (fetch_emails.py 679-737):
reads the starting cursor from the checkpoint (an all-whitespace non-empty
token is replaced by `None`, fetch_emails.py 683-685) and runs the paged
loop starting at `batch_count = 1`. -/
def fetch_all_emails (α : Type)
    (listOf : Option String → ListOutcome)
    (process : EmailsTable → String → EmailsTable × Option α)
    (clock : Nat → String) (fuel : Nat)
    (store : EmailsTable) (meta : SyncMeta) (max_emails : Option Nat) : SyncOutcome :=
  let page_token :=
    match get_sync_metadata meta "last_page_token" with
    | some t => if t ≠ "" ∧ pyStrip t = "" then none else some t
    | none => none
  fetch_all_emails_loop α listOf process clock max_emails fuel store meta page_token 0 1

/-!
## Helper lemmas
-/

theorem strTake_length_le (s : String) (n : Nat) : (strTake s n).length ≤ n :=
  List.length_take_le n s.data

theorem contains_iff_mem (l : List String) (a : String) : l.contains a = true ↔ a ∈ l := by
  simp

/-!
## Claim theorems
-/

/-- C4: for every model response dictionary, `_validate_analysis_results`
clamps `priority_score` into `[1,5]` (defaulting to 3 when missing and to
`max 1 (min 5 p)` for a supplied integer `p`), forces `sentiment` into the
fixed allowed set with `"neutral"` substituted for any unrecognized value,
truncates `suggested_actions` to at most 5 and `key_topics` to at most 10
elements, and truncates the string fields to 500/200/1000 characters. -/
theorem validate_analysis_results_spec (r : RawAnalysis) :
    (1 ≤ (validate_analysis_results r).priority_score
      ∧ (validate_analysis_results r).priority_score ≤ 5)
    ∧ (r.priority_score = none → (validate_analysis_results r).priority_score = 3)
    ∧ (∀ p : Int, r.priority_score = some p →
        (validate_analysis_results r).priority_score = max 1 (min 5 p))
    ∧ (validate_analysis_results r).sentiment ∈ valid_sentiments
    ∧ (pyLower (r.sentiment.getD "neutral") ∉ valid_sentiments →
        (validate_analysis_results r).sentiment = "neutral")
    ∧ (validate_analysis_results r).suggested_actions.length ≤ 5
    ∧ (validate_analysis_results r).key_topics.length ≤ 10
    ∧ (validate_analysis_results r).summary.length ≤ 500
    ∧ (validate_analysis_results r).priority_reason.length ≤ 200
    ∧ (validate_analysis_results r).draft_reply.length ≤ 1000 := by
  refine ⟨?_, ?_, ?_, ?_, ?_, ?_, ?_, ?_, ?_, ?_⟩
  · have h : (validate_analysis_results r).priority_score
        = max 1 (min 5 (r.priority_score.getD 3)) := rfl
    omega
  · intro h
    simp [validate_analysis_results, h]
  · intro p hp
    simp [validate_analysis_results, hp]
  · have hs : (validate_analysis_results r).sentiment
        = if valid_sentiments.contains (pyLower (r.sentiment.getD "neutral")) = true
          then pyLower (r.sentiment.getD "neutral") else "neutral" := rfl
    rw [hs]
    by_cases h : valid_sentiments.contains (pyLower (r.sentiment.getD "neutral")) = true
    · rw [if_pos h]
      exact (contains_iff_mem _ _).mp h
    · rw [if_neg h]
      decide
  · intro h
    have hs : (validate_analysis_results r).sentiment
        = if valid_sentiments.contains (pyLower (r.sentiment.getD "neutral")) = true
          then pyLower (r.sentiment.getD "neutral") else "neutral" := rfl
    rw [hs, if_neg (fun hcc => h ((contains_iff_mem _ _).mp hcc))]
  · exact List.length_take_le 5 _
  · exact List.length_take_le 10 _
  · exact strTake_length_le _ 500
  · exact strTake_length_le _ 200
  · exact strTake_length_le _ 1000

/-- Witness for C4: the specification's concrete example. A raw response
with `priority_score = 9`, `sentiment = "furious"` and 20 suggested actions
validates to `priority_score = 5`, `sentiment = "neutral"` and at most 5
actions. -/
theorem validate_analysis_results_spec_witness :
    (validate_analysis_results
        ⟨none, some 9, none, some "furious", none,
         some (List.replicate 20 "act"), none, none⟩).priority_score = 5
    ∧ (validate_analysis_results
        ⟨none, some 9, none, some "furious", none,
         some (List.replicate 20 "act"), none, none⟩).sentiment = "neutral"
    ∧ (validate_analysis_results
        ⟨none, some 9, none, some "furious", none,
         some (List.replicate 20 "act"), none, none⟩).suggested_actions.length ≤ 5 := by
  have h := validate_analysis_results_spec
    ⟨none, some 9, none, some "furious", none, some (List.replicate 20 "act"), none, none⟩
  refine ⟨?_, ?_, h.2.2.2.2.2.1⟩
  · have h9 := h.2.2.1 9 rfl
    rw [h9]
    decide
  · exact h.2.2.2.2.1 (by decide)

/-- C5: a model response that is not parseable as JSON, and a raised or
timed-out external call, both make `_run_ai_analysis` return the fixed
fallback payload — with `priority_score = 3`, `sentiment = "neutral"` and
`action_required = true` — instead of raising to the caller. -/
theorem run_ai_analysis_fallback :
    run_ai_analysis ModelResponse.badJson = get_fallback_analysis
    ∧ run_ai_analysis ModelResponse.raised = get_fallback_analysis
    ∧ get_fallback_analysis.priority_score = 3
    ∧ get_fallback_analysis.sentiment = "neutral"
    ∧ get_fallback_analysis.action_required = true :=
  ⟨rfl, rfl, rfl, rfl, rfl⟩

/-- C6: `map_labels_to_category` is a total function on label sets (including
`None` and the empty set) whose output is decided in the fixed priority
order INBOX, SENT, DRAFT, CATEGORY_PROMOTIONS, IMPORTANT, otherwise Other;
in particular `{INBOX, IMPORTANT}` maps to `"Inbox"` and the empty set and
`None` map to `"Other"`. -/
theorem map_labels_to_category_spec (labels : Option (List String)) :
    ((map_labels_to_category labels = "Inbox"
        ↔ (labels.getD []).contains "INBOX" = true)
      ∧ (map_labels_to_category labels = "Sent"
        ↔ ((labels.getD []).contains "INBOX" = false
            ∧ (labels.getD []).contains "SENT" = true))
      ∧ (map_labels_to_category labels = "Drafts"
        ↔ ((labels.getD []).contains "INBOX" = false
            ∧ (labels.getD []).contains "SENT" = false
            ∧ (labels.getD []).contains "DRAFT" = true))
      ∧ (map_labels_to_category labels = "Promotions"
        ↔ ((labels.getD []).contains "INBOX" = false
            ∧ (labels.getD []).contains "SENT" = false
            ∧ (labels.getD []).contains "DRAFT" = false
            ∧ (labels.getD []).contains "CATEGORY_PROMOTIONS" = true))
      ∧ (map_labels_to_category labels = "Important"
        ↔ ((labels.getD []).contains "INBOX" = false
            ∧ (labels.getD []).contains "SENT" = false
            ∧ (labels.getD []).contains "DRAFT" = false
            ∧ (labels.getD []).contains "CATEGORY_PROMOTIONS" = false
            ∧ (labels.getD []).contains "IMPORTANT" = true))
      ∧ (map_labels_to_category labels = "Other"
        ↔ ((labels.getD []).contains "INBOX" = false
            ∧ (labels.getD []).contains "SENT" = false
            ∧ (labels.getD []).contains "DRAFT" = false
            ∧ (labels.getD []).contains "CATEGORY_PROMOTIONS" = false
            ∧ (labels.getD []).contains "IMPORTANT" = false)))
    ∧ map_labels_to_category (some ["INBOX", "IMPORTANT"]) = "Inbox"
    ∧ map_labels_to_category (some []) = "Other"
    ∧ map_labels_to_category none = "Other" := by
  refine ⟨?_, by decide, by decide, by decide⟩
  simp only [map_labels_to_category]
  cases h1 : (labels.getD []).contains "INBOX" <;>
    cases h2 : (labels.getD []).contains "SENT" <;>
      cases h3 : (labels.getD []).contains "DRAFT" <;>
        cases h4 : (labels.getD []).contains "CATEGORY_PROMOTIONS" <;>
          cases h5 : (labels.getD []).contains "IMPORTANT" <;>
            simp_all

/-- C3 (failing input): the `emails` upsert updates mutable fields in place
without inserting a duplicate, but an upsert that supplies no read value
(`is_read = None`) does NOT leave the stored read flag unchanged: the Python
wrapper coerces `None` to `0` before binding, so the NULL-preserving branch
of the SQL `CASE` is unreachable and a stored `is_read = 1` is reset to `0`. -/
theorem upsert_email_is_read_none_resets :
    (upsert_email
        ⟨[⟨1, "g1", none, none, "alice", "", "hello", "d1", "sn", "old body", "INBOX",
           "Inbox", 1⟩], 2⟩
        "g1" none none "alice" "" "hello" "d1" "sn" "new body" "INBOX" "Inbox"
        none).1.rows
      = [⟨1, "g1", none, none, "alice", "", "hello", "d1", "sn", "new body", "INBOX",
          "Inbox", 0⟩]
    ∧ (upsert_email
        ⟨[⟨1, "g1", none, none, "alice", "", "hello", "d1", "sn", "old body", "INBOX",
           "Inbox", 1⟩], 2⟩
        "g1" none none "alice" "" "hello" "d1" "sn" "new body" "INBOX" "Inbox"
        none).2 = 1 := by
  exact ⟨rfl, rfl⟩

/-- C8: when listing the page itself raises, `fetch_email_batch` does not
propagate the exception: it returns an empty message list with no next
cursor, zero skips, no body fetches, and the store exactly as it was. -/
theorem fetch_email_batch_listing_failure (α : Type)
    (listOf : Option String → ListOutcome)
    (process : EmailsTable → String → EmailsTable × Option α)
    (store : EmailsTable) (page_token : Option String)
    (h : listOf (effective_page_token page_token) = ListOutcome.raised) :
    fetch_email_batch α listOf process store page_token = ⟨store, [], none, 0, []⟩ := by
  simp [fetch_email_batch, h]

/-- Witness for C8 at a concrete always-raising listing oracle. -/
theorem fetch_email_batch_listing_failure_witness :
    ((fun (_ : Option String) => ListOutcome.raised) (effective_page_token none)
        = ListOutcome.raised)
    ∧ fetch_email_batch Nat (fun _ => ListOutcome.raised)
        (fun st _ => (st, none)) ⟨[], 1⟩ none
      = ⟨⟨[], 1⟩, [], none, 0, []⟩ :=
  ⟨rfl, fetch_email_batch_listing_failure Nat (fun _ => ListOutcome.raised)
    (fun st _ => (st, none)) ⟨[], 1⟩ none rfl⟩

theorem is_already_analyzed_mark (s : AnalyzerState) (i j : Nat) :
    is_already_analyzed (mark_email_analyzed s i) j = is_already_analyzed s j := rfl

theorem get_existing_mark (s : AnalyzerState) (i j : Nat) :
    get_existing_analysis (mark_email_analyzed s i) j = get_existing_analysis s j := rfl

theorem is_already_analyzed_store_self (s : AnalyzerState) (a : EmailAnalysis) :
    is_already_analyzed (store_analysis s a) a.email_id = true := by
  simp [is_already_analyzed, store_analysis]

theorem get_existing_store_self (s : AnalyzerState) (a : EmailAnalysis) :
    get_existing_analysis (store_analysis s a) a.email_id = some a := by
  simp [get_existing_analysis, store_analysis, List.find?_cons_of_pos]

theorem mark_contains_self (s : AnalyzerState) (i : Nat) :
    (mark_email_analyzed s i).aiAnalyzed.contains i = true := by
  unfold mark_email_analyzed
  by_cases h : s.aiAnalyzed.contains i = true
  · rw [if_pos h]
    exact h
  · rw [if_neg h]
    simp

theorem analyze_email_cached (s : AnalyzerState) (email_id : Nat) (gmail_id : String)
    (resp : ModelResponse) (t : String) (e : Int)
    (h : is_already_analyzed s email_id = true) :
    analyze_email s email_id gmail_id resp t e = (s, get_existing_analysis s email_id) := by
  simp [analyze_email, h]

theorem analyze_email_fresh (s : AnalyzerState) (email_id : Nat) (gmail_id : String)
    (resp : ModelResponse) (t : String) (e : Int)
    (h : is_already_analyzed s email_id = false) :
    analyze_email s email_id gmail_id resp t e
      = (mark_email_analyzed
           (store_analysis { s with modelCalls := s.modelCalls + 1 }
             (mkEmailAnalysis email_id gmail_id (run_ai_analysis resp) t e)) email_id,
         some (mkEmailAnalysis email_id gmail_id (run_ai_analysis resp) t e)) := by
  simp [analyze_email, h]

/-- C1: calling `analyze_email` a second time for the same message identity
performs the external model call at most once in total. After the first
call the `email_analysis` row exists; the second call changes nothing (no
model invocation, no write — a pure read of the stored annotation), both
calls return equal results, and the total number of `llm.invoke` attempts
across both calls is at most one more than before. -/
theorem analyze_email_at_most_once (s : AnalyzerState) (email_id : Nat) (gmail_id : String)
    (resp resp' : ModelResponse) (t t' : String) (e e' : Int) :
    is_already_analyzed (analyze_email s email_id gmail_id resp t e).1 email_id = true
    ∧ (analyze_email (analyze_email s email_id gmail_id resp t e).1
        email_id gmail_id resp' t' e').1
      = (analyze_email s email_id gmail_id resp t e).1
    ∧ (analyze_email (analyze_email s email_id gmail_id resp t e).1
        email_id gmail_id resp' t' e').2
      = (analyze_email s email_id gmail_id resp t e).2
    ∧ ((analyze_email (analyze_email s email_id gmail_id resp t e).1
        email_id gmail_id resp' t' e').1).modelCalls ≤ s.modelCalls + 1 := by
  cases h : is_already_analyzed s email_id with
  | true =>
    rw [analyze_email_cached s email_id gmail_id resp t e h]
    rw [analyze_email_cached s email_id gmail_id resp' t' e' h]
    exact ⟨h, rfl, rfl, Nat.le_succ _⟩
  | false =>
    rw [analyze_email_fresh s email_id gmail_id resp t e h]
    have ha : is_already_analyzed
        (mark_email_analyzed
          (store_analysis { s with modelCalls := s.modelCalls + 1 }
            (mkEmailAnalysis email_id gmail_id (run_ai_analysis resp) t e)) email_id)
        email_id = true := by
      rw [is_already_analyzed_mark]
      exact is_already_analyzed_store_self _ _
    rw [analyze_email_cached _ email_id gmail_id resp' t' e' ha]
    refine ⟨ha, rfl, ?_, Nat.le_refl _⟩
    rw [get_existing_mark]
    exact get_existing_store_self _ _

/-- C10: when the external model call fails for a not-yet-analyzed message,
`analyze_email` stores the fallback payload as that message's analysis row,
sets the denormalized `ai_analyzed` flag, and returns the fallback; every
subsequent call for that message — whatever the model would now answer —
returns the cached fallback unchanged and never re-invokes the model (the
state, including the call counter, is untouched). -/
theorem analyze_email_caches_failed_enrichment (s : AnalyzerState) (email_id : Nat)
    (gmail_id : String) (t : String) (e : Int)
    (h : is_already_analyzed s email_id = false) :
    (analyze_email s email_id gmail_id ModelResponse.raised t e).2
      = some (mkEmailAnalysis email_id gmail_id get_fallback_analysis t e)
    ∧ get_existing_analysis (analyze_email s email_id gmail_id ModelResponse.raised t e).1
        email_id
      = some (mkEmailAnalysis email_id gmail_id get_fallback_analysis t e)
    ∧ (analyze_email s email_id gmail_id ModelResponse.raised t e).1.aiAnalyzed.contains
        email_id = true
    ∧ ∀ (resp' : ModelResponse) (t' : String) (e' : Int),
        analyze_email (analyze_email s email_id gmail_id ModelResponse.raised t e).1
          email_id gmail_id resp' t' e'
          = ((analyze_email s email_id gmail_id ModelResponse.raised t e).1,
             (analyze_email s email_id gmail_id ModelResponse.raised t e).2) := by
  rw [analyze_email_fresh s email_id gmail_id ModelResponse.raised t e h]
  have hrun : run_ai_analysis ModelResponse.raised = get_fallback_analysis := rfl
  rw [hrun]
  have ha : is_already_analyzed
      (mark_email_analyzed
        (store_analysis { s with modelCalls := s.modelCalls + 1 }
          (mkEmailAnalysis email_id gmail_id get_fallback_analysis t e)) email_id)
      email_id = true := by
    rw [is_already_analyzed_mark]
    exact is_already_analyzed_store_self _ _
  have hget : get_existing_analysis
      (mark_email_analyzed
        (store_analysis { s with modelCalls := s.modelCalls + 1 }
          (mkEmailAnalysis email_id gmail_id get_fallback_analysis t e)) email_id)
      email_id = some (mkEmailAnalysis email_id gmail_id get_fallback_analysis t e) := by
    rw [get_existing_mark]
    exact get_existing_store_self _ _
  refine ⟨rfl, hget, mark_contains_self _ _, ?_⟩
  intro resp' t' e'
  rw [analyze_email_cached _ email_id gmail_id resp' t' e' ha, hget]

/-- Witness for C10: a failed model call on an empty state caches the
fallback payload for email 1. -/
theorem analyze_email_caches_failed_enrichment_witness :
    is_already_analyzed ⟨[], [], 0⟩ 1 = false
    ∧ (analyze_email ⟨[], [], 0⟩ 1 "g1" ModelResponse.raised "ts" 0).2
      = some (mkEmailAnalysis 1 "g1" get_fallback_analysis "ts" 0) :=
  ⟨rfl, (analyze_email_caches_failed_enrichment ⟨[], [], 0⟩ 1 "g1" "ts" 0 rfl).1⟩

theorem batch_step_fold_skips (α : Type) (existing : List String)
    (process : EmailsTable → String → EmailsTable × Option α) (ms : List String)
    (hall : ∀ gid ∈ ms, existing.contains gid = true) :
    ∀ (st : EmailsTable) (em : List α) (tok : Option String) (k : Nat) (fb : List String),
      ms.foldl (batch_step α existing process) ⟨st, em, tok, k, fb⟩
        = ⟨st, em, tok, k + ms.length, fb⟩ := by
  induction ms with
  | nil =>
    intro st em tok k fb
    rfl
  | cons gid rest ih =>
    intro st em tok k fb
    have hg : existing.contains gid = true := hall gid (List.mem_cons_self gid rest)
    have hstep : batch_step α existing process ⟨st, em, tok, k, fb⟩ gid
        = ⟨st, em, tok, k + 1, fb⟩ := by
      unfold batch_step
      rw [if_pos hg]
    rw [List.foldl_cons, hstep,
      ih (fun g hgm => hall g (List.mem_cons_of_mem gid hgm)) st em tok (k + 1) fb]
    have hlen : k + 1 + rest.length = k + (gid :: rest).length := by
      simp [List.length_cons]
      omega
    rw [hlen]

/-- C2: ingestion is idempotent. For every page whose listed message ids are
all already present in the store (by provider identity, checked against the
single pre-fetched set of stored gmail ids), `fetch_email_batch` returns
zero new messages, fetches no message body, counts every listed id as
skipped, and returns the store completely unchanged. -/
theorem fetch_email_batch_idempotent (α : Type)
    (listOf : Option String → ListOutcome)
    (process : EmailsTable → String → EmailsTable × Option α)
    (store : EmailsTable) (page_token : Option String) (r : ListResult)
    (hlist : listOf (effective_page_token page_token) = ListOutcome.ok r)
    (hall : ∀ gid ∈ r.messages, (existing_gmail_ids store).contains gid = true) :
    fetch_email_batch α listOf process store page_token
      = ⟨store, [], r.nextPageToken, r.messages.length, []⟩ := by
  unfold fetch_email_batch
  rw [hlist]
  cases hemp : r.messages.isEmpty with
  | true =>
    have hnil : r.messages = [] := List.isEmpty_iff.mp hemp
    simp [hnil]
  | false =>
    simp only [hemp, Bool.false_eq_true, if_false]
    rw [batch_step_fold_skips α (existing_gmail_ids store) process r.messages hall
      store [] r.nextPageToken 0 []]
    rw [Nat.zero_add]

/-- Witness for C2: a one-id page whose id is already stored is fully
skipped and the store is returned unchanged. -/
theorem fetch_email_batch_idempotent_witness :
    ((fun (_ : Option String) => ListOutcome.ok ⟨["m1"], some "tok2"⟩)
        (effective_page_token none) = ListOutcome.ok ⟨["m1"], some "tok2"⟩)
    ∧ (∀ gid ∈ ["m1"],
        (existing_gmail_ids
          ⟨[⟨1, "m1", none, none, "s", "", "subj", "d", "sn", "b", "", "Inbox", 1⟩],
           2⟩).contains gid = true)
    ∧ fetch_email_batch Nat (fun _ => ListOutcome.ok ⟨["m1"], some "tok2"⟩)
        (fun st _ => (st, none))
        ⟨[⟨1, "m1", none, none, "s", "", "subj", "d", "sn", "b", "", "Inbox", 1⟩], 2⟩ none
      = ⟨⟨[⟨1, "m1", none, none, "s", "", "subj", "d", "sn", "b", "", "Inbox", 1⟩], 2⟩,
         [], some "tok2", 1, []⟩ :=
  ⟨rfl, by decide,
    fetch_email_batch_idempotent Nat (fun _ => ListOutcome.ok ⟨["m1"], some "tok2"⟩)
      (fun st _ => (st, none))
      ⟨[⟨1, "m1", none, none, "s", "", "subj", "d", "sn", "b", "", "Inbox", 1⟩], 2⟩ none
      ⟨["m1"], some "tok2"⟩ rfl (by decide)⟩

theorem update_sync_metadata_at_key (m : SyncMeta) (k v : String) :
    update_sync_metadata m k v k = some v := by
  simp [update_sync_metadata]

theorem update_sync_metadata_at_other (m : SyncMeta) (k k' v : String) (h : k' ≠ k) :
    update_sync_metadata m k v k' = m k' := by
  simp [update_sync_metadata, h]

theorem fetch_all_emails_loop_counter (α : Type)
    (listOf : Option String → ListOutcome)
    (process : EmailsTable → String → EmailsTable × Option α)
    (clock : Nat → String) (max_emails : Option Nat) :
    ∀ (fuel : Nat) (store : EmailsTable) (meta : SyncMeta) (pt : Option String)
      (total bc : Nat),
      (fetch_all_emails_loop α listOf process clock max_emails fuel store meta pt
          total bc).meta "total_emails_fetched"
        = meta "total_emails_fetched" := by
  intro fuel
  induction fuel with
  | zero =>
    intro store meta pt total bc
    rfl
  | succ n ih =>
    intro store meta pt total bc
    simp only [fetch_all_emails_loop]
    have hmeta2 : ∀ m : SyncMeta, ∀ v₁ v₂ : String,
        update_sync_metadata (update_sync_metadata m "last_page_token" v₁)
          "last_sync_time" v₂ "total_emails_fetched"
          = m "total_emails_fetched" := by
      intro m v₁ v₂
      rw [update_sync_metadata_at_other _ _ _ _ (by decide),
        update_sync_metadata_at_other _ _ _ _ (by decide)]
    split
    · exact hmeta2 meta ((fetch_email_batch α listOf process store pt).nextPageToken.getD "")
        (clock bc)
    · split
      · exact hmeta2 meta ((fetch_email_batch α listOf process store pt).nextPageToken.getD "")
          (clock bc)
      · rw [ih]
        exact hmeta2 meta ((fetch_email_batch α listOf process store pt).nextPageToken.getD "")
          (clock bc)

theorem fetch_all_emails_loop_writes_checkpoint (α : Type)
    (listOf : Option String → ListOutcome)
    (process : EmailsTable → String → EmailsTable × Option α)
    (clock : Nat → String) (max_emails : Option Nat) :
    ∀ (fuel : Nat) (store : EmailsTable) (meta : SyncMeta) (pt : Option String)
      (total bc : Nat),
      (((fetch_all_emails_loop α listOf process clock max_emails (fuel + 1) store meta pt
          total bc).meta "last_page_token").isSome = true)
      ∧ (((fetch_all_emails_loop α listOf process clock max_emails (fuel + 1) store meta pt
          total bc).meta "last_sync_time").isSome = true) := by
  intro fuel
  induction fuel with
  | zero =>
    intro store meta pt total bc
    simp only [fetch_all_emails_loop]
    have h1 : ∀ m : SyncMeta, ∀ v₁ v₂ : String,
        (update_sync_metadata (update_sync_metadata m "last_page_token" v₁)
          "last_sync_time" v₂ "last_page_token").isSome = true := by
      intro m v₁ v₂
      rw [update_sync_metadata_at_other _ _ _ _ (by decide),
        update_sync_metadata_at_key]
      rfl
    have h2 : ∀ m : SyncMeta, ∀ v₁ v₂ : String,
        (update_sync_metadata (update_sync_metadata m "last_page_token" v₁)
          "last_sync_time" v₂ "last_sync_time").isSome = true := by
      intro m v₁ v₂
      rw [update_sync_metadata_at_key]
      rfl
    split
    · exact ⟨h1 meta ((fetch_email_batch α listOf process store pt).nextPageToken.getD "")
          (clock bc),
        h2 meta ((fetch_email_batch α listOf process store pt).nextPageToken.getD "")
          (clock bc)⟩
    · split
      · exact ⟨h1 meta ((fetch_email_batch α listOf process store pt).nextPageToken.getD "")
            (clock bc),
          h2 meta ((fetch_email_batch α listOf process store pt).nextPageToken.getD "")
            (clock bc)⟩
      · exact ⟨h1 meta ((fetch_email_batch α listOf process store pt).nextPageToken.getD "")
            (clock bc),
          h2 meta ((fetch_email_batch α listOf process store pt).nextPageToken.getD "")
            (clock bc)⟩
  | succ n ih =>
    intro store meta pt total bc
    simp only [fetch_all_emails_loop]
    have h1 : ∀ m : SyncMeta, ∀ v₁ v₂ : String,
        (update_sync_metadata (update_sync_metadata m "last_page_token" v₁)
          "last_sync_time" v₂ "last_page_token").isSome = true := by
      intro m v₁ v₂
      rw [update_sync_metadata_at_other _ _ _ _ (by decide),
        update_sync_metadata_at_key]
      rfl
    have h2 : ∀ m : SyncMeta, ∀ v₁ v₂ : String,
        (update_sync_metadata (update_sync_metadata m "last_page_token" v₁)
          "last_sync_time" v₂ "last_sync_time").isSome = true := by
      intro m v₁ v₂
      rw [update_sync_metadata_at_key]
      rfl
    split
    · exact ⟨h1 meta ((fetch_email_batch α listOf process store pt).nextPageToken.getD "")
          (clock bc),
        h2 meta ((fetch_email_batch α listOf process store pt).nextPageToken.getD "")
          (clock bc)⟩
    · split
      · exact ⟨h1 meta ((fetch_email_batch α listOf process store pt).nextPageToken.getD "")
            (clock bc),
          h2 meta ((fetch_email_batch α listOf process store pt).nextPageToken.getD "")
            (clock bc)⟩
      · exact ih _ _ _ _ _

/-- C7 (amended): after every page the full-sync driver advances the
checkpoint cursor (`last_page_token`, set to the next token or `""`) and the
wall-clock timestamp (`last_sync_time`) — any run of at least one page ends
with both keys written — but it never writes the cumulative fetched counter:
`total_emails_fetched` is left exactly as it was before the run (that key is
only advanced by the dashboard's sync handler, outside this driver). -/
theorem fetch_all_emails_checkpoint (α : Type)
    (listOf : Option String → ListOutcome)
    (process : EmailsTable → String → EmailsTable × Option α)
    (clock : Nat → String) (store : EmailsTable) (meta : SyncMeta)
    (max_emails : Option Nat) :
    (∀ fuel : Nat,
      (fetch_all_emails α listOf process clock fuel store meta max_emails).meta
          "total_emails_fetched"
        = meta "total_emails_fetched")
    ∧ ∀ fuel : Nat,
      (((fetch_all_emails α listOf process clock (fuel + 1) store meta
          max_emails).meta "last_page_token").isSome = true)
      ∧ (((fetch_all_emails α listOf process clock (fuel + 1) store meta
          max_emails).meta "last_sync_time").isSome = true) := by
  constructor
  · intro fuel
    exact fetch_all_emails_loop_counter α listOf process clock max_emails fuel store meta _ 0 1
  · intro fuel
    exact fetch_all_emails_loop_writes_checkpoint α listOf process clock max_emails fuel
      store meta _ 0 1

/-- Counterexample for C7 as stated: a concrete one-page sync that stores
one new message. The driver reports one processed message and writes the
cursor and the timestamp, but the cumulative counter `total_emails_fetched`
is never written — the checkpoint is NOT advanced with all three
components. -/
theorem fetch_all_emails_counter_not_advanced :
    (fetch_all_emails String (fun _ => ListOutcome.ok ⟨["m1"], none⟩)
        (fun st gid =>
          (⟨st.rows ++ [⟨st.nextId, gid, none, none, "s", "", "subj", "d", "sn", "b", "",
             "Inbox", 1⟩], st.nextId + 1⟩, some gid))
        (fun _ => "100") 5 ⟨[], 1⟩ (fun _ => none) none).total_processed = 1
    ∧ (fetch_all_emails String (fun _ => ListOutcome.ok ⟨["m1"], none⟩)
        (fun st gid =>
          (⟨st.rows ++ [⟨st.nextId, gid, none, none, "s", "", "subj", "d", "sn", "b", "",
             "Inbox", 1⟩], st.nextId + 1⟩, some gid))
        (fun _ => "100") 5 ⟨[], 1⟩ (fun _ => none) none).meta "last_page_token" = some ""
    ∧ (fetch_all_emails String (fun _ => ListOutcome.ok ⟨["m1"], none⟩)
        (fun st gid =>
          (⟨st.rows ++ [⟨st.nextId, gid, none, none, "s", "", "subj", "d", "sn", "b", "",
             "Inbox", 1⟩], st.nextId + 1⟩, some gid))
        (fun _ => "100") 5 ⟨[], 1⟩ (fun _ => none) none).meta "last_sync_time" = some "100"
    ∧ (fetch_all_emails String (fun _ => ListOutcome.ok ⟨["m1"], none⟩)
        (fun st gid =>
          (⟨st.rows ++ [⟨st.nextId, gid, none, none, "s", "", "subj", "d", "sn", "b", "",
             "Inbox", 1⟩], st.nextId + 1⟩, some gid))
        (fun _ => "100") 5 ⟨[], 1⟩ (fun _ => none) none).meta "total_emails_fetched"
      = none := by
  refine ⟨rfl, rfl, rfl, rfl⟩

theorem attKey_iff (r : AttachmentRow) (e : Nat) (f : String) (s : Nat) :
    attKey r e f s = true ↔ (r.email_id = e ∧ r.filename = f ∧ r.size = s) := by
  simp [attKey, and_assoc]

theorem find?_att_key_of_mem (rows : List AttachmentRow) (e : Nat) (f : String) (sz : Nat)
    (old : AttachmentRow)
    (hu : rows.Pairwise (fun a b => ¬ sameAttKey a b))
    (hmem : old ∈ rows)
    (hkey : old.email_id = e ∧ old.filename = f ∧ old.size = sz) :
    rows.find? (fun r => attKey r e f sz) = some old := by
  induction rows with
  | nil => cases hmem
  | cons hd tl ih =>
    by_cases hh : attKey hd e f sz = true
    · rw [List.find?_cons_of_pos tl hh]
      rcases List.mem_cons.mp hmem with h1 | h1
      · rw [h1]
      · exfalso
        have h2 := (attKey_iff hd e f sz).mp hh
        have hsame : sameAttKey hd old :=
          ⟨h2.1.trans hkey.1.symm, h2.2.1.trans hkey.2.1.symm, h2.2.2.trans hkey.2.2.symm⟩
        exact (List.rel_of_pairwise_cons hu h1) hsame
    · rw [List.find?_cons_of_neg tl (by simpa using hh)]
      have hold_tl : old ∈ tl := by
        rcases List.mem_cons.mp hmem with h1 | h1
        · exfalso
          apply hh
          rw [← h1]
          exact (attKey_iff old e f sz).mpr hkey
        · exact h1
      exact ih hu.of_cons hold_tl

theorem pairwise_key_map (rows : List AttachmentRow) (g : AttachmentRow → AttachmentRow)
    (hpres : ∀ r, (g r).email_id = r.email_id ∧ (g r).filename = r.filename
      ∧ (g r).size = r.size)
    (hu : rows.Pairwise (fun a b => ¬ sameAttKey a b)) :
    (rows.map g).Pairwise (fun a b => ¬ sameAttKey a b) := by
  refine List.Pairwise.map g ?_ hu
  intro a b hab hsame
  apply hab
  unfold sameAttKey at hsame ⊢
  obtain ⟨h1, h2, h3⟩ := hsame
  rw [(hpres a).1, (hpres b).1] at h1
  rw [(hpres a).2.1, (hpres b).2.1] at h2
  rw [(hpres a).2.2, (hpres b).2.2] at h3
  exact ⟨h1, h2, h3⟩

theorem insert_attachment_core_preserves_unique (t : AttachmentsTable) (e : Nat)
    (fname : String) (sz : Nat) (ct : Option (List Nat)) (bp : Option String)
    (hu : att_keys_unique t) :
    att_keys_unique (insert_attachment_core t e fname sz ct bp).1 := by
  unfold att_keys_unique at hu ⊢
  cases hfind : t.rows.find? (fun r => attKey r e fname sz) with
  | none =>
    simp only [insert_attachment_core, hfind]
    apply List.pairwise_append.mpr
    refine ⟨hu, List.pairwise_singleton _ _, ?_⟩
    intro x hx y hy
    have hy' : y = ⟨t.nextId, e, fname, sz, bp, ct⟩ := by simpa using hy
    subst hy'
    intro hsame
    have hxkey : attKey x e fname sz = true :=
      (attKey_iff x e fname sz).mpr ⟨hsame.1, hsame.2.1, hsame.2.2⟩
    exact (List.find?_eq_none.mp hfind x hx) hxkey
  | some old =>
    simp only [insert_attachment_core, hfind]
    apply pairwise_key_map
    · intro r
      by_cases h : attKey r e fname sz = true
      · rw [if_pos h]
        have hro := (attKey_iff r e fname sz).mp h
        have hfo := List.find?_some hfind
        have hoo := (attKey_iff old e fname sz).mp hfo
        exact ⟨hoo.1.trans hro.1.symm, hoo.2.1.trans hro.2.1.symm,
          hoo.2.2.trans hro.2.2.symm⟩
      · rw [if_neg h]
        exact ⟨rfl, rfl, rfl⟩
    · exact hu

/-- C9: the attachment key `(owning message id, filename, size)` stays
unique under every insert, and a conflicting re-insert for an existing key
does not duplicate the row, returns the existing row's id, and — when the
new attempt yields no content (`content = None`) — preserves the previously
stored content of the row with that key. -/
theorem insert_attachment_spec (t : AttachmentsTable) (email_id : Nat)
    (f : String) (preview' : Option String) (sz : Nat) (old : AttachmentRow)
    (hf : ¬ f = "")
    (hu : att_keys_unique t)
    (hmem : old ∈ t.rows)
    (hkey : old.email_id = email_id ∧ old.filename = f ∧ old.size = sz) :
    (∀ (fn : Option String) (ct : Option (List Nat)) (cp : Option String)
        (szo : Option Nat),
      att_keys_unique (insert_attachment t email_id fn ct cp szo).1)
    ∧ (insert_attachment t email_id (some f) none preview' (some sz)).1.rows.length
        = t.rows.length
    ∧ (insert_attachment t email_id (some f) none preview' (some sz)).2 = some old.id
    ∧ ∀ r' ∈ (insert_attachment t email_id (some f) none preview' (some sz)).1.rows,
        (r'.email_id = email_id ∧ r'.filename = f ∧ r'.size = sz) →
          r'.content = old.content := by
  have hfn : resolved_att_filename (some f) = f := by
    simp [resolved_att_filename, hf]
  have hfind : t.rows.find? (fun r => attKey r email_id f sz) = some old :=
    find?_att_key_of_mem t.rows email_id f sz old hu hmem hkey
  have hred : insert_attachment t email_id (some f) none preview' (some sz)
      = insert_attachment_core t email_id f sz none (some (preview'.getD "")) := by
    unfold insert_attachment
    rw [hfn]
    rfl
  refine ⟨?_, ?_, ?_, ?_⟩
  · intro fn ct cp szo
    exact insert_attachment_core_preserves_unique t email_id
      (resolved_att_filename fn) (resolved_att_size ct szo) ct
      (some (cp.getD "")) hu
  · rw [hred]
    simp only [insert_attachment_core, hfind]
    exact List.length_map _ _
  · rw [hred]
    simp only [insert_attachment_core, hfind]
  · intro r' hr' hk'
    rw [hred] at hr'
    simp only [insert_attachment_core, hfind] at hr'
    obtain ⟨r, hrmem, hreq⟩ := List.mem_map.mp hr'
    by_cases hak : attKey r email_id f sz = true
    · rw [← hreq, if_pos hak]
      rfl
    · exfalso
      apply hak
      rw [← hreq, if_neg hak] at hk'
      exact (attKey_iff r email_id f sz).mpr hk'

/-- Witness for C9: re-inserting the key `(7, "a.txt", 3)` with no content
does not duplicate the stored row of that key. -/
theorem insert_attachment_spec_witness :
    (¬ "a.txt" = "")
    ∧ att_keys_unique ⟨[⟨1, 7, "a.txt", 3, some "p", some [1, 2, 3]⟩], 2⟩
    ∧ (⟨1, 7, "a.txt", 3, some "p", some [1, 2, 3]⟩ : AttachmentRow)
        ∈ (⟨[⟨1, 7, "a.txt", 3, some "p", some [1, 2, 3]⟩], 2⟩ : AttachmentsTable).rows
    ∧ (insert_attachment ⟨[⟨1, 7, "a.txt", 3, some "p", some [1, 2, 3]⟩], 2⟩ 7
        (some "a.txt") none (some "q") (some 3)).1.rows.length
      = (⟨[⟨1, 7, "a.txt", 3, some "p", some [1, 2, 3]⟩], 2⟩
          : AttachmentsTable).rows.length :=
  ⟨by decide, List.pairwise_singleton _ _, List.mem_singleton.mpr rfl,
    (insert_attachment_spec ⟨[⟨1, 7, "a.txt", 3, some "p", some [1, 2, 3]⟩], 2⟩ 7
      "a.txt" (some "q") 3 ⟨1, 7, "a.txt", 3, some "p", some [1, 2, 3]⟩
      (by decide) (List.pairwise_singleton _ _) (List.mem_singleton.mpr rfl)
      ⟨rfl, rfl, rfl⟩).2.1⟩

end MailDashboard
